import Mathlib

/-!
Verification of the notification fan-out service (notification-ms).

The embedding below translates the Go code of the notification service:
the subscriber registry (a map from user id to a subscriber holding a
buffered channel of capacity 10), the fan-out operation
(notificationServer.broadcast), the stream-session lifecycle
(notificationServer.SubscribeToNotifications: register, send loop,
deferred cleanup) and the bus event handlers
(notificationServer.subscribeToEvents: the user.created and bill.update
NATS callbacks).

Modelling conventions:
  * A subscriber object (a *subscriber in Go) is identified by a natural
    number sinkId; its buffered channel is a list of notifications, its
    closed flag a Bool.  The registry is a function from user id to an
    optional sinkId.
  * The bounded-wait enqueue of broadcast is modelled by a snapshot of the
    queue: if the queue has space (length below capacity) during the grace
    period the send succeeds, otherwise the select falls into the timeout
    branch and the record is dropped with no state change.
  * JSON payloads are either malformed (json.Unmarshal returns an error)
    or an object of string fields; a missing field unmarshals to the empty
    string, exactly as Go json.Unmarshal leaves a string field at its zero
    value when the key is absent.
  * The uuid and timestamp generated at decode time are nondeterministic
    inputs and are passed as explicit parameters.
-/

namespace NotifService

/-- The notification record (notifpb.Notification wire shape). -/
structure Notification where
  id : String
  userId : String
  message : String
  timestamp : String
deriving DecidableEq, Repr

/-- Outcome of one broadcast (deliver) call: the channel send succeeded,
no subscriber was registered, or the one-second timeout fired. -/
inductive DeliveryOutcome where
  | Delivered
  | NoSubscriber
  | Dropped
deriving DecidableEq, Repr

/-- Capacity of each subscriber channel: make(chan *notifpb.Notification, 10). -/
def queueCapacity : Nat := 10

/-- State of the notificationServer: the subscribers map keyed by user id
(each value the identity of a subscriber object), each subscriber object's
buffered channel contents, and whether its channel has been closed. -/
structure NotifState where
  subscribers : String → Option Nat
  queues : Nat → List Notification
  closed : Nat → Bool

/-- The server state right after construction: empty subscribers map. -/
def initState : NotifState :=
  { subscribers := fun _ => none
    queues := fun _ => []
    closed := fun _ => false }

/-- notificationServer.broadcast: read-lock lookup of the subscribers map;
if absent, log and return (NoSubscriber); otherwise select between sending
on the channel and a one second timeout.  The queue snapshot decides which
select branch fires: space within the grace period means Delivered, a
queue that stays full means Dropped with the record discarded. -/
def broadcast (st : NotifState) (userID : String) (notif : Notification) :
    NotifState × DeliveryOutcome :=
  match st.subscribers userID with
  | none => (st, DeliveryOutcome.NoSubscriber)
  | some sid =>
      if (st.queues sid).length < queueCapacity then
        ({ st with
            queues := fun i => if i = sid then st.queues sid ++ [notif] else st.queues i },
          DeliveryOutcome.Delivered)
      else
        (st, DeliveryOutcome.Dropped)

/-- The attach phase of notificationServer.SubscribeToNotifications: create
a fresh subscriber with an empty buffered channel of capacity 10 and store
it in the subscribers map under req.UserId (insert or replace).  There is
no validation of userID in the code. -/
def subscribeAttach (st : NotifState) (userID : String) (sid : Nat) : NotifState :=
  { subscribers := fun k => if k = userID then some sid else st.subscribers k
    queues := fun i => if i = sid then [] else st.queues i
    closed := fun i => if i = sid then false else st.closed i }

/-- The deferred cleanup of SubscribeToNotifications: delete(s.subscribers,
userID) -- an unconditional delete by key, with no check that the stored
subscriber is this session's own -- followed by close(sub.ch). -/
def detachCleanup (st : NotifState) (userID : String) (sid : Nat) : NotifState :=
  { subscribers := fun k => if k = userID then none else st.subscribers k
    queues := st.queues
    closed := fun i => if i = sid then true else st.closed i }

/-- One wake-up of the session's select loop: either a notification was
received from the channel (and stream.Send either succeeded or failed), or
the stream context was cancelled. -/
inductive SessionEvent where
  | recv (sendOk : Bool)
  | cancelled
deriving DecidableEq, Repr

/-- Whether this select-loop event makes the session return (a failed
stream.Send or a cancelled context); a successful send continues the loop. -/
def SessionEvent.isExit : SessionEvent → Bool
  | SessionEvent.recv ok => !ok
  | SessionEvent.cancelled => true

/-- Receiving from the subscriber channel removes the head of its queue. -/
def dequeue (st : NotifState) (sid : Nat) : NotifState :=
  { st with queues := fun i => if i = sid then (st.queues i).tail else st.queues i }

/-- The for/select loop of SubscribeToNotifications driven by a trace of
wake-ups.  A successful send consumes one queued record and loops; a failed
send or a cancellation returns from the handler, which runs the deferred
cleanup exactly once.  A trace with no exit event leaves the session still
active. -/
def sessionLoop (userID : String) (sid : Nat) :
    NotifState → List SessionEvent → NotifState
  | st, [] => st
  | st, SessionEvent.recv true :: rest => sessionLoop userID sid (dequeue st sid) rest
  | st, SessionEvent.recv false :: _ => detachCleanup (dequeue st sid) userID sid
  | st, SessionEvent.cancelled :: _ => detachCleanup st userID sid

/-- A bus payload: either bytes that json.Unmarshal rejects, or a JSON
object of string-valued fields (a wrongly typed field also makes Unmarshal
return an error and is folded into malformed). -/
inductive BusPayload where
  | malformed
  | obj (fields : List (String × String))
deriving DecidableEq, Repr

/-- First value stored under a key in a JSON object's field list. -/
def getField : List (String × String) → String → Option String
  | [], _ => none
  | (k, v) :: rest, key => if k = key then some v else getField rest key

/-- The user.created event struct: UID and Username with json tags uid and
username. -/
structure UserCreatedEvent where
  uid : String
  username : String
deriving DecidableEq, Repr

/-- The bill.update event struct: Id and Message with json tags Id and
Message. -/
structure BillUpdate where
  id : String
  message : String
deriving DecidableEq, Repr

/-- json.Unmarshal into UserCreatedEvent: fails only on malformed bytes; a
missing field is left at the zero value, the empty string. -/
def unmarshalUserCreated : BusPayload → Option UserCreatedEvent
  | BusPayload.malformed => none
  | BusPayload.obj fs =>
      some { uid := (getField fs "uid").getD ""
             username := (getField fs "username").getD "" }

/-- json.Unmarshal into billUpdate: fails only on malformed bytes; a
missing field is left at the empty string. -/
def unmarshalBillUpdate : BusPayload → Option BillUpdate
  | BusPayload.malformed => none
  | BusPayload.obj fs =>
      some { id := (getField fs "Id").getD ""
             message := (getField fs "Message").getD "" }

/-- Decode step of the user.created callback: on unmarshal success build
the notification with UserId = event.UID and Message =
fmt.Sprintf of Welcome to the platform with the username. -/
def decodeUserCreated (p : BusPayload) (newId ts : String) : Option Notification :=
  match unmarshalUserCreated p with
  | none => none
  | some ev =>
      some { id := newId
             userId := ev.uid
             message := "Welcome to the platform, " ++ ev.username ++ "!"
             timestamp := ts }

/-- Decode step of the bill.update callback: on unmarshal success build the
notification with UserId = event.Id and Message = event.Message, passed
through verbatim. -/
def decodeBillUpdate (p : BusPayload) (newId ts : String) : Option Notification :=
  match unmarshalBillUpdate p with
  | none => none
  | some ev =>
      some { id := newId
             userId := ev.id
             message := ev.message
             timestamp := ts }

/-- The user.created NATS callback: unmarshal, log and return on error,
otherwise construct the notification and call broadcast(event.UID, notif).
The second component records whether broadcast ran and with what outcome. -/
def userCreatedHandler (st : NotifState) (p : BusPayload) (newId ts : String) :
    NotifState × Option DeliveryOutcome :=
  match decodeUserCreated p newId ts with
  | none => (st, none)
  | some notif =>
      let r := broadcast st notif.userId notif
      (r.1, some r.2)

/-- The bill.update NATS callback: unmarshal, log and return on error,
otherwise construct the notification and call broadcast(event.Id, notif). -/
def billUpdateHandler (st : NotifState) (p : BusPayload) (newId ts : String) :
    NotifState × Option DeliveryOutcome :=
  match decodeBillUpdate p newId ts with
  | none => (st, none)
  | some notif =>
      let r := broadcast st notif.userId notif
      (r.1, some r.2)

/-- A session whose cleanup has run is gone from the delivery path: its
entry is removed, its channel closed, no key of the registry maps to its
subscriber object, and no broadcast call can ever enqueue onto its queue. -/
def detachedFrom (st : NotifState) (userID : String) (sid : Nat) : Prop :=
  st.subscribers userID = none ∧
  st.closed sid = true ∧
  (∀ k, st.subscribers k ≠ some sid) ∧
  (∀ u n, (broadcast st u n).1.queues sid = st.queues sid)

/-- A sample notification used to instantiate witness statements. -/
def sampleNotif : Notification :=
  { id := "n1", userId := "u1", message := "m", timestamp := "t" }

/-- Helper: when no key of the registry maps to sid, a broadcast call never
writes into queue sid (it either finds no subscriber or enqueues onto a
different subscriber's queue). -/
theorem broadcast_queue_untouched (st : NotifState) (u : String) (n : Notification)
    (sid : Nat) (h : ∀ k, st.subscribers k ≠ some sid) :
    (broadcast st u n).1.queues sid = st.queues sid := by
  unfold broadcast
  cases hs : st.subscribers u with
  | none => rfl
  | some s =>
      have hne : sid ≠ s := fun e => h u (by rw [e]; exact hs)
      by_cases hlt : (st.queues s).length < queueCapacity
      · simp [hlt, hne]
      · simp [hlt]

/-- Helper: running the deferred cleanup detaches the session, provided its
subscriber object was registered (if at all) only under its own user id. -/
theorem cleanup_detached (st : NotifState) (userID : String) (sid : Nat)
    (honly : ∀ k, st.subscribers k = some sid → k = userID) :
    detachedFrom (detachCleanup st userID sid) userID sid := by
  have h3 : ∀ k, (detachCleanup st userID sid).subscribers k ≠ some sid := by
    intro k h
    by_cases hk : k = userID
    · simp [detachCleanup, hk] at h
    · simp only [detachCleanup] at h
      rw [if_neg hk] at h
      exact hk (honly k h)
  exact ⟨by simp [detachCleanup], by simp [detachCleanup], h3,
    fun u n => broadcast_queue_untouched _ u n sid h3⟩

/-- C1: the deliver operation (broadcast) on a Notification Record: with no
sink registered for the recipient it returns NoSubscriber and has no other
effect; with a registered sink whose bounded queue has space the record is
enqueued on that sink and Delivered is returned; with a queue that is full
(and stays full for the whole one second grace period, which in this
snapshot model is the full case) it returns Dropped, the state is
unchanged and the record is discarded, never enqueued on the sink. -/
theorem deliver_outcome_spec (st : NotifState) (u : String) (n : Notification) :
    (st.subscribers u = none → broadcast st u n = (st, DeliveryOutcome.NoSubscriber)) ∧
    (∀ sid, st.subscribers u = some sid →
      ((st.queues sid).length < queueCapacity →
        (broadcast st u n).2 = DeliveryOutcome.Delivered ∧
        (broadcast st u n).1.queues sid = st.queues sid ++ [n]) ∧
      (queueCapacity ≤ (st.queues sid).length →
        broadcast st u n = (st, DeliveryOutcome.Dropped))) := by
  refine ⟨fun h => ?_, fun sid h => ⟨fun hlt => ?_, fun hge => ?_⟩⟩
  · simp [broadcast, h]
  · simp [broadcast, h, hlt]
  · simp [broadcast, h, Nat.not_lt.mpr hge]

/-- C2 (code evaluated at the failing input): two streams attach for u4 in
quick succession (subscriber objects 1 then 2); the map then stores the
newer object 2; the first session's detach runs the unconditional
delete-by-key cleanup and removes the newer registration, leaving u4 with
no subscriber at all, instead of the identity-checked removal the spec
mandates. -/
theorem unregister_deletes_newer :
    ((subscribeAttach (subscribeAttach initState "u4" 1) "u4" 2).subscribers "u4"
        = some 2) ∧
    ((detachCleanup (subscribeAttach (subscribeAttach initState "u4" 1) "u4" 2)
        "u4" 1).subscribers "u4" = none) := by
  constructor
  · rfl
  · rfl

/-- C3 counterexample: calling the streaming endpoint with an empty
recipient id is not rejected; the attach phase runs and a sink is
registered under the empty key, contradicting the claim that the call
fails before any registry entry is created. -/
theorem openStream_empty_registers :
    (subscribeAttach initState "" 0).subscribers "" = some 0 := by
  rfl

/-- C3 amended: SubscribeToNotifications performs no validation of the
recipient id; a call with the empty recipient id proceeds exactly like any
other, registering its fresh sink (with an empty queue and open channel)
under the empty key. -/
theorem openStream_no_validation (st : NotifState) (sid : Nat) :
    (subscribeAttach st "" sid).subscribers "" = some sid ∧
    (subscribeAttach st "" sid).queues sid = [] ∧
    (subscribeAttach st "" sid).closed sid = false := by
  refine ⟨?_, ?_, ?_⟩ <;> simp [subscribeAttach]

/-- C4 counterexample: the user.created payload with displayName Ana
produces the message Welcome to the platform, Ana! and not the message
Welcome, Ana! stated by the claim. -/
theorem welcome_message_differs :
    decodeUserCreated (BusPayload.obj [("uid", "u1"), ("username", "Ana")]) "n1" "t1" =
      some { id := "n1", userId := "u1",
             message := "Welcome to the platform, Ana!", timestamp := "t1" } ∧
    "Welcome to the platform, Ana!" ≠ "Welcome, Ana!" := by
  exact ⟨rfl, by decide⟩

/-- C4 amended: a payload on the account-created subject (user.created in
the source) that deserializes to id and displayName produces exactly one
record with recipientId the payload id and message Welcome to the
platform, followed by the displayName and an exclamation mark. -/
theorem decode_account_created (uid name newId ts : String) :
    decodeUserCreated (BusPayload.obj [("uid", uid), ("username", name)]) newId ts =
      some { id := newId, userId := uid,
             message := "Welcome to the platform, " ++ name ++ "!",
             timestamp := ts } := by
  rfl

/-- C5 counterexample: a user.created payload that lacks the uid field
still unmarshals (Go leaves the field at the empty string), a record with
an empty recipientId is constructed, and that record reaches the deliver
operation: the handler invokes broadcast, whose outcome (NoSubscriber on
the empty registry) proves the call happened. -/
theorem empty_recipient_reaches_deliver :
    decodeUserCreated (BusPayload.obj [("username", "Ana")]) "n1" "t1" =
      some { id := "n1", userId := "",
             message := "Welcome to the platform, Ana!", timestamp := "t1" } ∧
    (userCreatedHandler initState (BusPayload.obj [("username", "Ana")]) "n1" "t1").2 =
      some DeliveryOutcome.NoSubscriber := by
  exact ⟨rfl, rfl⟩

/-- C5 amended: payloads that fail structural deserialization are discarded
before a record is constructed, but there is no non-empty check on the
recipient id: every successfully decoded record, including one whose
recipientId is the empty string, is handed to broadcast unchanged. -/
theorem decoded_records_reach_deliver (st : NotifState) (p : BusPayload)
    (newId ts : String) :
    (decodeUserCreated p newId ts = none → userCreatedHandler st p newId ts = (st, none)) ∧
    (∀ n, decodeUserCreated p newId ts = some n →
      userCreatedHandler st p newId ts =
        ((broadcast st n.userId n).1, some (broadcast st n.userId n).2)) ∧
    (decodeBillUpdate p newId ts = none → billUpdateHandler st p newId ts = (st, none)) ∧
    (∀ n, decodeBillUpdate p newId ts = some n →
      billUpdateHandler st p newId ts =
        ((broadcast st n.userId n).1, some (broadcast st n.userId n).2)) := by
  refine ⟨fun h => ?_, fun n h => ?_, fun h => ?_, fun n h => ?_⟩ <;>
    simp [userCreatedHandler, billUpdateHandler, h]

/-- C6: delivering a record for recipient r1 never writes into, and never
removes, the sink registered under a different recipient r2: the queue of
r2's subscriber object is untouched and its registration survives.  The
hypothesis that r1 does not map to r2's subscriber object holds in every
reachable state because each attach registers a freshly allocated
subscriber under exactly one key. -/
theorem no_cross_recipient_leakage (st : NotifState) (r1 r2 : String) (sid2 : Nat)
    (n : Notification) (hne : r1 ≠ r2) (h2 : st.subscribers r2 = some sid2)
    (h1 : st.subscribers r1 ≠ some sid2) :
    (broadcast st r1 n).1.queues sid2 = st.queues sid2 ∧
    (broadcast st r1 n).1.subscribers r2 = some sid2 := by
  unfold broadcast
  cases h : st.subscribers r1 with
  | none => exact ⟨rfl, h2⟩
  | some s =>
      have hs : sid2 ≠ s := fun e => h1 (by rw [e]; exact h)
      by_cases hlt : (st.queues s).length < queueCapacity
      · simp [hlt, hs, h2]
      · simp [hlt, h2]

/-- C6 witness: with u2 registered (subscriber object 0) and nothing for
u1, delivering a record addressed to u1 leaves u2's queue and registration
unchanged. -/
theorem no_cross_recipient_leakage_witness :
    (broadcast (subscribeAttach initState "u2" 0) "u1" sampleNotif).1.queues 0 =
      (subscribeAttach initState "u2" 0).queues 0 ∧
    (broadcast (subscribeAttach initState "u2" 0) "u1" sampleNotif).1.subscribers "u2" =
      some 0 :=
  no_cross_recipient_leakage (subscribeAttach initState "u2" 0) "u1" "u2" 0 sampleNotif
    (by decide) (by decide) (by decide)

/-- C7: on every exit of the Active state -- a failed stream.Send on a
delivered record or an external cancellation -- the session's deferred
cleanup runs (once, at the first exit event): its registry entry is
removed, its channel is closed, no registry key maps to its subscriber
object any more, and no later broadcast can enqueue anything onto its
queue.  The hypothesis says the session's subscriber object was registered
only under its own user id, which holds in every reachable state. -/
theorem session_exit_cleanup (st : NotifState) (userID : String) (sid : Nat)
    (events : List SessionEvent) (hexit : events.any SessionEvent.isExit = true)
    (honly : ∀ k, st.subscribers k = some sid → k = userID) :
    detachedFrom (sessionLoop userID sid st events) userID sid := by
  induction events generalizing st with
  | nil => simp at hexit
  | cons e rest ih =>
      cases e with
      | cancelled => exact cleanup_detached st userID sid honly
      | recv ok =>
          cases ok with
          | true =>
              have hexit2 : rest.any SessionEvent.isExit = true := by
                simpa [SessionEvent.isExit] using hexit
              exact ih (dequeue st sid) hexit2 (fun k h => honly k h)
          | false =>
              exact cleanup_detached (dequeue st sid) userID sid fun k h => honly k h

/-- C7 witness: a session for u3 (subscriber object 0) that delivers one
record and is then cancelled ends detached: entry removed, channel closed,
no further delivery can reach it. -/
theorem session_exit_cleanup_witness :
    detachedFrom
      (sessionLoop "u3" 0 (subscribeAttach initState "u3" 0)
        [SessionEvent.recv true, SessionEvent.cancelled]) "u3" 0 :=
  session_exit_cleanup (subscribeAttach initState "u3" 0) "u3" 0
    [SessionEvent.recv true, SessionEvent.cancelled] (by decide)
    (fun k h => by
      by_cases hk : k = "u3"
      · exact hk
      · exfalso
        simp [subscribeAttach, initState, hk] at h)

/-- C8: a payload whose structural deserialization fails produces no
record: the handler returns with the whole server state (registry, every
queue, every closed flag) unchanged and broadcast is never invoked, for
both bus subjects; the callback simply returns, so later events are
processed as before. -/
theorem decode_failure_no_effect (st : NotifState) (p : BusPayload)
    (newId ts : String) :
    (unmarshalUserCreated p = none → userCreatedHandler st p newId ts = (st, none)) ∧
    (unmarshalBillUpdate p = none → billUpdateHandler st p newId ts = (st, none)) := by
  refine ⟨fun h => ?_, fun h => ?_⟩
  · simp [userCreatedHandler, decodeUserCreated, h]
  · simp [billUpdateHandler, decodeBillUpdate, h]

/-- C9: a payload on the ledger-updated subject (bill.update in the
source) that deserializes to id and message yields exactly one record
whose recipientId is the payload id and whose message is the payload
message, unaltered. -/
theorem decode_ledger_updated (i m newId ts : String) :
    decodeBillUpdate (BusPayload.obj [("Id", i), ("Message", m)]) newId ts =
      some { id := newId, userId := i, message := m, timestamp := ts } := by
  rfl

/-- C10: deliver never mutates the registry: whatever the outcome, the
subscribers map and every closed flag are exactly as before the call, and
the only queue that can change is the one of the subscriber object looked
up for the record's own recipient. -/
theorem deliver_preserves_registry (st : NotifState) (u : String) (n : Notification) :
    (broadcast st u n).1.subscribers = st.subscribers ∧
    (broadcast st u n).1.closed = st.closed ∧
    ∀ i, st.subscribers u ≠ some i → (broadcast st u n).1.queues i = st.queues i := by
  unfold broadcast
  cases h : st.subscribers u with
  | none => exact ⟨rfl, rfl, fun i _ => rfl⟩
  | some sid =>
      by_cases hlt : (st.queues sid).length < queueCapacity
      · refine ⟨?_, ?_, fun i hi => ?_⟩
        · simp [hlt]
        · simp [hlt]
        · have hni : i ≠ sid := fun e => hi (by rw [e])
          simp [hlt, hni]
      · simp [hlt]

end NotifService
